import Mathlib

/-!
Verification of the GateKeeper session + OTP subsystem.

Shallow embedding of:
  * the OTP issuance / verification service
    (`sendRegistrationOTP`, `verifyEmail`, `sendVerificationEmail`),
  * the session store (`createSession`, `getSession`,
    `updateSessionActivity`, `cleanupExpiredSessions`),
  * the session-cookie attributes set by the session service
    (`createAndSetSession`) and the session middleware (`sessionHandler`).

Time is modelled in milliseconds as `Nat`.  The Mongo collections are
modelled as lists kept in insertion order: `findOne` is `List.find?`,
`deleteOne` removes the first match, `create` appends, `deleteMany`
filters.  Randomness is passed in explicitly: the raw uniform source of
`Math.random() * 900000` is a `Fin 900000`, and email delivery outcomes
are an oracle `Nat → Bool` giving the success of each send attempt.
-/

namespace GateKeeper

/-- Milliseconds per minute; the source computes expiry via
`Date.setMinutes`, i.e. whole-minute offsets on a millisecond clock. -/
def msPerMin : Nat := 60000

/-! ## OTP data model (`otpModel`, `userModel`) -/

/-- An OTP collection document: `{ email, otp, expiresAt }`. -/
structure OTPRecord where
  email : String
  otp : String
  expiresAt : Nat
deriving DecidableEq, Repr

/-- The slice of a user document the OTP flow reads and writes:
`{ email, isVerified }`. -/
structure UserRec where
  email : String
  isVerified : Bool
deriving DecidableEq, Repr

/-- The database state seen by the OTP service: the OTP collection and
the user collection, each in insertion order. -/
structure OtpDb where
  otps : List OTPRecord
  users : List UserRec
deriving DecidableEq, Repr

/-- The filter `{ email, otp }` used by `verifyEmail`'s `OTP.findOne`. -/
def otpMatches (email otp : String) (r : OTPRecord) : Bool :=
  r.email == email && r.otp == otp

/-- The filter `{ email }` used by `sendRegistrationOTP`'s `OTP.findOne`
and `OTP.deleteOne`. -/
def otpEmailIs (email : String) (r : OTPRecord) : Bool :=
  r.email == email

/-- The filter `{ email }` on the user collection. -/
def userEmailIs (email : String) (u : UserRec) : Bool :=
  u.email == email

/-- `OTP_EXPIRY_MINUTES = 10` from the OTP service. -/
def OTP_EXPIRY_MINUTES : Nat := 10

/-- Numeric value of `Math.floor(100000 + Math.random() * 900000)`:
the uniform source `Math.random() * 900000` is a `Fin 900000`. -/
def genCodeNat (r : Fin 900000) : Nat := 100000 + r.val

/-- `generateOTP`: the 6-digit code as the string the source stores. -/
def generateOTP (r : Fin 900000) : String := toString (genCodeNat r)

/-! ## Email delivery with retry (`sendVerificationEmail`) -/

/-- The initial value of the `retries` counter in
`sendVerificationEmail` (`let retries = 2`). -/
def MAX_EMAIL_RETRIES : Nat := 2

/-- The backoff delay inserted when `retries` has just been decremented
to `retriesLeft`: `Math.pow(2, 2 - retries) * 1000` milliseconds. -/
def backoffDelay (retriesLeft : Nat) : Nat :=
  2 ^ (MAX_EMAIL_RETRIES - retriesLeft) * 1000

/-- The retry loop of `sendVerificationEmail`.  `oracle i` is whether
send attempt `i` succeeds; returns overall success and the list of
backoff delays actually waited, in order. -/
def sendLoop (oracle : Nat → Bool) : Nat → Nat → List Nat → Bool × List Nat
  | attempt, retriesLeft, delays =>
    if oracle attempt then (true, delays.reverse)
    else
      match retriesLeft with
      | 0 => (false, delays.reverse)
      | Nat.succ r => sendLoop oracle (attempt + 1) r (backoffDelay r :: delays)

/-- `sendVerificationEmail`: tries the send, retrying while
`retries >= 0` with exponential backoff; `false` means it threw after
exhausting all attempts. -/
def sendVerificationEmail (oracle : Nat → Bool) : Bool × List Nat :=
  sendLoop oracle 0 MAX_EMAIL_RETRIES []

/-! ## OTP issuance (`sendRegistrationOTP`) -/

/-- Error codes thrown by `sendRegistrationOTP`. -/
inductive IssueErr where
  | alreadyVerified
  | emailSendFailed
deriving DecidableEq, Repr

/-- The success payload of `sendRegistrationOTP`: `{ otp, isNewUser }`. -/
structure IssueOk where
  otp : String
  isNewUser : Bool
deriving DecidableEq, Repr

/-- The `try { await sendVerificationEmail ... } catch { EMAIL_SEND_FAILED }`
tail of `sendRegistrationOTP`: delivery failure does not change the
database state reached before the send. -/
def deliverOTP (oracle : Nat → Bool) (otpCode : String) (isNewUser : Bool)
    (db : OtpDb) : Except IssueErr IssueOk × OtpDb :=
  if (sendVerificationEmail oracle).1 then
    (Except.ok ⟨otpCode, isNewUser⟩, db)
  else
    (Except.error IssueErr.emailSendFailed, db)

/-- `sendRegistrationOTP(email, isResend)` at time `now`, with raw
randomness `rand` and delivery oracle `oracle`.  Faithful to the source:
a verified user blocks a non-resend; a resend regenerates (deleting the
one existing row first); a missing record regenerates; an existing
record on a non-resend is reused unchanged. -/
def sendRegistrationOTP (email : String) (isResend : Bool) (now : Nat)
    (rand : Fin 900000) (oracle : Nat → Bool) (db : OtpDb) :
    Except IssueErr IssueOk × OtpDb :=
  let userOpt := db.users.find? (userEmailIs email)
  let isNewUser := userOpt.isNone
  if (userOpt.map (fun u => u.isVerified)).getD false && !isResend then
    (Except.error IssueErr.alreadyVerified, db)
  else
    match db.otps.find? (otpEmailIs email) with
    | some r =>
      if isResend then
        let otpCode := generateOTP rand
        let expiresAt := now + OTP_EXPIRY_MINUTES * msPerMin
        let otps' := (db.otps.eraseP (otpEmailIs email)) ++ [⟨email, otpCode, expiresAt⟩]
        deliverOTP oracle otpCode isNewUser { db with otps := otps' }
      else
        deliverOTP oracle r.otp isNewUser db
    | none =>
      let otpCode := generateOTP rand
      let expiresAt := now + OTP_EXPIRY_MINUTES * msPerMin
      deliverOTP oracle otpCode isNewUser
        { db with otps := db.otps ++ [⟨email, otpCode, expiresAt⟩] }

/-! ## OTP verification (`verifyEmail`) -/

/-- Error codes thrown by `verifyEmail`. -/
inductive VerifyErr where
  | otpInvalid
  | otpExpired
  | userNotFound
deriving DecidableEq, Repr

/-- `user.isVerified = true; user.save()`: updates the first user
document matching the email. -/
def setVerified (email : String) : List UserRec → List UserRec
  | [] => []
  | u :: rest =>
    if u.email == email then { u with isVerified := true } :: rest
    else u :: setVerified email rest

/-- `verifyEmail(email, otp)` at time `now`.  Faithful to the source
order: find by `{email, otp}` (no expiry filter); missing → `OTP_INVALID`;
expired (`expiresAt < now`) → delete the record, `OTP_EXPIRED`; missing
user → `USER_NOT_FOUND`; otherwise mark the user verified, delete the
consumed record, and return the verified user. -/
def verifyEmail (email otp : String) (now : Nat) (db : OtpDb) :
    Except VerifyErr UserRec × OtpDb :=
  match db.otps.find? (otpMatches email otp) with
  | none => (Except.error VerifyErr.otpInvalid, db)
  | some r =>
    if r.expiresAt < now then
      (Except.error VerifyErr.otpExpired,
        { db with otps := db.otps.eraseP (otpMatches email otp) })
    else
      match db.users.find? (userEmailIs email) with
      | none => (Except.error VerifyErr.userNotFound, db)
      | some u =>
        (Except.ok { u with isVerified := true },
          { db with
              users := setVerified email db.users,
              otps := db.otps.eraseP (otpMatches email otp) })

/-! ## Session store (`sessionService.ts`) -/

/-- A session collection document. -/
structure SessionRecord where
  sessionId : String
  userId : String
  lastActivity : Nat
  expiresAt : Nat
  userAgent : Option String := none
  ip : Option String := none
deriving DecidableEq, Repr

/-- The default `maxInactivityMinutes = 30` of the session service. -/
def DEFAULT_INACTIVITY_MINUTES : Nat := 30

/-- The filter `{ sessionId }`. -/
def sessionIdIs (sessionId : String) (s : SessionRecord) : Bool :=
  s.sessionId == sessionId

/-- `createSession`: computes `expiresAt = now + window`, deletes any
existing document with the same id (`deleteOne`), then inserts. -/
def createSession (sessionId userId : String) (userAgent ip : Option String)
    (now maxInactivityMinutes : Nat) (st : List SessionRecord) :
    SessionRecord × List SessionRecord :=
  let s : SessionRecord :=
    { sessionId := sessionId, userId := userId, lastActivity := now,
      expiresAt := now + maxInactivityMinutes * msPerMin,
      userAgent := userAgent, ip := ip }
  (s, (st.eraseP (sessionIdIs sessionId)) ++ [s])

/-- `getSession`: `findOne({ sessionId, expiresAt: { $gt: now } })` —
returns the record only while `expiresAt > now`. -/
def getSession (sessionId : String) (now : Nat) (st : List SessionRecord) :
    Option SessionRecord :=
  st.find? (fun s => sessionIdIs sessionId s && decide (now < s.expiresAt))

/-- The `$set` payload of `updateSessionActivity`:
`lastActivity = now`, `expiresAt = now + window`. -/
def touchSession (now windowMs : Nat) (s : SessionRecord) : SessionRecord :=
  { s with lastActivity := now, expiresAt := now + windowMs }

/-- Replace the first element satisfying `p` by its image under `f`
(Mongo `updateOne`: at most one document is written). -/
def replaceFirst (p : SessionRecord → Bool) (f : SessionRecord → SessionRecord) :
    List SessionRecord → List SessionRecord
  | [] => []
  | s :: rest => if p s then f s :: rest else s :: replaceFirst p f rest

/-- `updateSessionActivity`: `updateOne({ sessionId }, { $set: ... })`,
returning `result.modifiedCount > 0`.  Mongo's `modifiedCount` counts
documents actually changed, so a matched document whose fields already
equal the new values reports `0` and the function returns `false`. -/
def updateSessionActivity (sessionId : String) (now maxInactivityMinutes : Nat)
    (st : List SessionRecord) : Bool × List SessionRecord :=
  match st.find? (sessionIdIs sessionId) with
  | none => (false, st)
  | some s =>
    let s' := touchSession now (maxInactivityMinutes * msPerMin) s
    (decide (s' ≠ s),
      replaceFirst (sessionIdIs sessionId) (touchSession now (maxInactivityMinutes * msPerMin)) st)

/-- `deleteSession`: `deleteOne({ sessionId })`, returns whether a
document was removed. -/
def deleteSession (sessionId : String) (st : List SessionRecord) :
    Bool × List SessionRecord :=
  ((st.find? (sessionIdIs sessionId)).isSome, st.eraseP (sessionIdIs sessionId))

/-- `cleanupExpiredSessions`: `deleteMany({ expiresAt: { $lt: now } })`,
returning the deleted count and the surviving store (the documents NOT
matching the delete filter). -/
def cleanupExpiredSessions (now : Nat) (st : List SessionRecord) :
    Nat × List SessionRecord :=
  (st.countP (fun s => decide (s.expiresAt < now)),
    st.filter (fun s => !decide (s.expiresAt < now)))

/-! ## Session cookies (`createAndSetSession`, `sessionHandler`) -/

/-- `sameSite` cookie policies. -/
inductive SameSite where
  | strict
  | lax
  | nonePolicy
deriving DecidableEq, Repr

/-- The cookie attributes passed to `res.cookie`. -/
structure CookieOptions where
  httpOnly : Bool
  secure : Bool
  maxAge : Nat
  sameSite : SameSite
deriving DecidableEq, Repr

/-- The cookie set by the session service's `createAndSetSession`:
`maxAge = maxInactivityMinutes * 60 * 1000`, `httpOnly`, `secure` in
production, caller-chosen `sameSite`. -/
def serviceSessionCookie (isProduction : Bool) (sameSitePolicy : SameSite)
    (maxInactivityMinutes : Nat) : CookieOptions :=
  { httpOnly := true, secure := isProduction,
    maxAge := maxInactivityMinutes * 60 * 1000, sameSite := sameSitePolicy }

/-- The cookie set by the middleware's `sessionHandler` when it creates
a session: `maxAge = 24 * 60 * 60 * 1000` (a hardcoded 24 hours),
`sameSite: strict`. -/
def middlewareSessionCookie (isProduction : Bool) : CookieOptions :=
  { httpOnly := true, secure := isProduction,
    maxAge := 24 * 60 * 60 * 1000, sameSite := SameSite.strict }

/-- The inactivity window of the session `sessionHandler` creates: it
calls `createSession(sessionId, user, userAgent, ip)` without a window
argument, so the default 30 minutes applies. -/
def middlewareSessionWindowMinutes : Nat := DEFAULT_INACTIVITY_MINUTES

/-! ## List helper lemmas -/

theorem find?_append_eq_right {α} (p : α → Bool) {l₁ : List α} (l₂ : List α)
    (h : l₁.find? p = none) : (l₁ ++ l₂).find? p = l₂.find? p := by
  rw [List.find?_append, h, Option.none_or]

theorem find?_filter_of_imp {α} (p q : α → Bool) (l : List α)
    (h : ∀ x, p x = true → q x = true) :
    (l.filter q).find? p = l.find? p := by
  induction l with
  | nil => rfl
  | cons a t ih =>
    by_cases hpa : p a = true
    · have hqa := h a hpa
      simp [List.filter_cons, hqa, List.find?_cons, hpa]
    · by_cases hqa : q a = true
      · simp [List.filter_cons, hqa, List.find?_cons, hpa, ih]
      · simp [List.filter_cons, hqa, List.find?_cons, hpa, ih]

/-! ## C2 -/

/-- C2: `verifyEmail` distinguishes an expired-but-present OTP record
from a non-existent one: a record matching `(email, otp)` whose
`expiresAt` lies in the past yields `OTP_EXPIRED`, while the absence of
any matching record yields `OTP_INVALID`; a matching-but-expired record
therefore never reaches the invalid verdict. -/
theorem verify_distinguishes_expired_from_invalid
    (email otp : String) (now : Nat) (db : OtpDb) :
    (∀ r, db.otps.find? (otpMatches email otp) = some r → r.expiresAt < now →
      (verifyEmail email otp now db).1 = Except.error VerifyErr.otpExpired) ∧
    (db.otps.find? (otpMatches email otp) = none →
      (verifyEmail email otp now db).1 = Except.error VerifyErr.otpInvalid) := by
  constructor
  · intro r hr hexp
    simp [verifyEmail, hr, hexp]
  · intro h
    simp [verifyEmail, h]

/-- C2 witness: a concrete store where the matching record is expired
(`Expired`) and a mismatching code finds no record (`Invalid`). -/
theorem verify_distinguishes_expired_from_invalid_witness :
    (verifyEmail "e@x.com" "123456" 5000 ⟨[⟨"e@x.com", "123456", 4000⟩], []⟩).1 =
        Except.error VerifyErr.otpExpired ∧
    (verifyEmail "e@x.com" "654321" 5000 ⟨[⟨"e@x.com", "123456", 4000⟩], []⟩).1 =
        Except.error VerifyErr.otpInvalid :=
  ⟨(verify_distinguishes_expired_from_invalid "e@x.com" "123456" 5000
        ⟨[⟨"e@x.com", "123456", 4000⟩], []⟩).1
      ⟨"e@x.com", "123456", 4000⟩ (by decide) (by decide),
    (verify_distinguishes_expired_from_invalid "e@x.com" "654321" 5000
        ⟨[⟨"e@x.com", "123456", 4000⟩], []⟩).2 (by decide)⟩

/-! ## C3 -/

/-- C3 counterexample: a session whose `expiresAt` equals `now` exactly
is not returned by `getSession` (validity needs `expiresAt > now`), yet
`cleanupExpiredSessions` does not delete it (deletion needs
`expiresAt < now`), so "cleanup deletes it iff get would not return it"
is false at this boundary input. -/
theorem cleanup_get_boundary_counterexample :
    getSession "s1" 1000 [⟨"s1", "u1", 0, 1000, none, none⟩] = none ∧
    cleanupExpiredSessions 1000 [⟨"s1", "u1", 0, 1000, none, none⟩] =
      (0, [⟨"s1", "u1", 0, 1000, none, none⟩]) := by decide

/-- C3 amended: `cleanupExpiredSessions` removes exactly the records
with `expiresAt < now` (those with `now ≤ expiresAt` survive), reports
their count, and never deletes a record `getSession` would return —
`getSession` is unchanged by a cleanup at the same instant — but the
deletion predicate is `expiresAt < now` while `get`'s validity predicate
is `expiresAt > now`, so a record with `expiresAt = now` is not returned
by `get` yet survives cleanup. -/
theorem cleanupExpired_exact_and_get_unchanged (now : Nat) (st : List SessionRecord) :
    (cleanupExpiredSessions now st).2 = st.filter (fun s => decide (now ≤ s.expiresAt)) ∧
    (cleanupExpiredSessions now st).1 = st.countP (fun s => decide (s.expiresAt < now)) ∧
    ∀ sessionId, getSession sessionId now ((cleanupExpiredSessions now st).2) =
      getSession sessionId now st := by
  refine ⟨?_, rfl, ?_⟩
  · apply List.filter_congr
    intro s _
    simp [← decide_not, Nat.not_lt]
  · intro sessionId
    apply find?_filter_of_imp
    intro s hs
    have hlt : now < s.expiresAt := by
      have := (Bool.and_eq_true _ _).mp hs
      exact of_decide_eq_true this.2
    simp [Nat.not_lt.mpr (Nat.le_of_lt hlt)]

/-! ## C7 -/

/-- C7 counterexample: the middleware's `sessionHandler` sets the
session cookie with a hardcoded `maxAge` of 24 hours, while the session
it creates uses the default 30-minute inactivity window, so the cookie
`maxAge` does not equal the inactivity window in milliseconds. -/
theorem middleware_cookie_maxAge_counterexample :
    (middlewareSessionCookie false).maxAge ≠ middlewareSessionWindowMinutes * 60 * 1000 ∧
    (middlewareSessionCookie false).maxAge = 24 * 60 * 60 * 1000 ∧
    middlewareSessionWindowMinutes = 30 := by decide

/-- C7 amended: the session service's `createAndSetSession` cookie has
`maxAge` equal to its inactivity window in milliseconds with
`httpOnly = true` and `secure` in production; the middleware's
`sessionHandler` cookie also has `httpOnly = true` and `secure` in
production, but its `maxAge` is a fixed 24 hours, which differs from the
30-minute inactivity window of the session it creates. -/
theorem session_cookie_attributes (isProduction : Bool) (sameSitePolicy : SameSite)
    (maxInactivityMinutes : Nat) :
    (serviceSessionCookie isProduction sameSitePolicy maxInactivityMinutes).maxAge =
        maxInactivityMinutes * 60 * 1000 ∧
    (serviceSessionCookie isProduction sameSitePolicy maxInactivityMinutes).httpOnly = true ∧
    (serviceSessionCookie isProduction sameSitePolicy maxInactivityMinutes).secure =
        isProduction ∧
    (middlewareSessionCookie isProduction).httpOnly = true ∧
    (middlewareSessionCookie isProduction).secure = isProduction ∧
    (middlewareSessionCookie isProduction).maxAge = 24 * 60 * 60 * 1000 ∧
    (middlewareSessionCookie isProduction).maxAge ≠
        middlewareSessionWindowMinutes * 60 * 1000 := by
  refine ⟨rfl, rfl, rfl, rfl, rfl, rfl, ?_⟩
  show (24 * 60 * 60 * 1000 : Nat) ≠ middlewareSessionWindowMinutes * 60 * 1000
  decide

/-! ## More list helpers (sessions) -/

theorem find?_eq_head?_of_filter {α} (p : α → Bool) (l : List α) :
    l.find? p = (l.filter p).head? := by
  induction l with
  | nil => rfl
  | cons a t ih =>
    by_cases hpa : p a = true
    · rw [List.find?_cons_of_pos t hpa, List.filter_cons_of_pos hpa, List.head?_cons]
    · rw [List.find?_cons_of_neg t hpa, List.filter_cons_of_neg hpa, ih]

theorem find?_replaceFirst_of_imp (p q : SessionRecord → Bool)
    (f : SessionRecord → SessionRecord) {st : List SessionRecord} {s : SessionRecord}
    (hfind : st.find? p = some s)
    (himp : ∀ x, q x = true → p x = true)
    (hqf : q (f s) = true) :
    (replaceFirst p f st).find? q = some (f s) := by
  induction st with
  | nil => simp at hfind
  | cons a t ih =>
    by_cases hpa : p a = true
    · rw [List.find?_cons_of_pos t hpa] at hfind
      have ha : a = s := by injection hfind
      subst ha
      simp [replaceFirst, hpa, List.find?_cons_of_pos _ hqf]
    · have hqa : ¬ q a = true := fun hq => hpa (himp a hq)
      rw [List.find?_cons_of_neg t hpa] at hfind
      simp [replaceFirst, hpa, List.find?_cons_of_neg _ hqa, ih hfind]

/-! ## C6 -/

/-- C6 counterexample: a session that still exists but already carries
exactly `lastActivity = now` and `expiresAt = now + window` is matched
by `updateSessionActivity`'s `updateOne` but not modified, so
`modifiedCount` is `0` and touch returns `false` even though the session
exists — refuting "touch returns true for every existing session". -/
theorem touch_unchanged_returns_false_counterexample :
    ([⟨"s1", "u1", 100, 100 + 30 * 60000, none, none⟩].find?
        (sessionIdIs "s1")).isSome = true ∧
    updateSessionActivity "s1" 100 30 [⟨"s1", "u1", 100, 100 + 30 * 60000, none, none⟩] =
      (false, [⟨"s1", "u1", 100, 100 + 30 * 60000, none, none⟩]) := by decide

/-- C6 amended: `updateSessionActivity` on an existing session writes
`lastActivity = now` and `expiresAt = now + window`, and returns `true`
exactly when that write changes the stored record (Mongo's
`modifiedCount` counts changed documents, so a record already equal to
the new values yields `false`); it returns `false` leaving the store
unchanged when the session no longer exists; and `getSession` returns
none for a session that has gone `window` minutes without a touch
(its `expiresAt = lastActivity + window ≤ now`). -/
theorem touch_slides_expiration (sessionId : String) (now w : Nat)
    (st : List SessionRecord) :
    (st.find? (sessionIdIs sessionId) = none →
      updateSessionActivity sessionId now w st = (false, st)) ∧
    (∀ s, st.find? (sessionIdIs sessionId) = some s →
      (updateSessionActivity sessionId now w st).2.find? (sessionIdIs sessionId) =
          some (touchSession now (w * msPerMin) s) ∧
      (touchSession now (w * msPerMin) s).lastActivity = now ∧
      (touchSession now (w * msPerMin) s).expiresAt = now + w * msPerMin ∧
      ((updateSessionActivity sessionId now w st).1 = true ↔
        touchSession now (w * msPerMin) s ≠ s)) ∧
    ((∀ x ∈ st, sessionIdIs sessionId x = true →
        x.expiresAt = x.lastActivity + w * msPerMin ∧ x.lastActivity + w * msPerMin ≤ now) →
      getSession sessionId now st = none) := by
  refine ⟨?_, ?_, ?_⟩
  · intro h
    simp [updateSessionActivity, h]
  · intro s hfind
    have hps : sessionIdIs sessionId s = true := List.find?_some hfind
    have hpf : sessionIdIs sessionId (touchSession now (w * msPerMin) s) = true := by
      simpa [sessionIdIs, touchSession] using hps
    refine ⟨?_, rfl, rfl, ?_⟩
    · have := find?_replaceFirst_of_imp (sessionIdIs sessionId) (sessionIdIs sessionId)
        (touchSession now (w * msPerMin)) hfind (fun x h => h) hpf
      simpa [updateSessionActivity, hfind] using this
    · simp [updateSessionActivity, hfind]
  · intro h
    apply List.find?_eq_none.mpr
    intro x hx hq
    have hid : sessionIdIs sessionId x = true := ((Bool.and_eq_true _ _).mp hq).1
    have hlt : now < x.expiresAt :=
      of_decide_eq_true ((Bool.and_eq_true _ _).mp hq).2
    obtain ⟨heq, hle⟩ := h x hx hid
    rw [heq] at hlt
    exact absurd hlt (Nat.not_lt.mpr hle)

/-- C6 witness: a one-session store with a 1-minute window, touched or
read at `now = 70000` (70 s after last activity). -/
theorem touch_slides_expiration_witness :
    updateSessionActivity "zz" 70000 1 [⟨"s1", "u1", 0, 60000, none, none⟩] =
      (false, [⟨"s1", "u1", 0, 60000, none, none⟩]) ∧
    (updateSessionActivity "s1" 70000 1 [⟨"s1", "u1", 0, 60000, none, none⟩]).2.find?
        (sessionIdIs "s1") =
      some (touchSession 70000 (1 * msPerMin) ⟨"s1", "u1", 0, 60000, none, none⟩) ∧
    ((updateSessionActivity "s1" 70000 1 [⟨"s1", "u1", 0, 60000, none, none⟩]).1 = true ↔
      touchSession 70000 (1 * msPerMin) ⟨"s1", "u1", 0, 60000, none, none⟩ ≠
        ⟨"s1", "u1", 0, 60000, none, none⟩) ∧
    getSession "s1" 70000 [⟨"s1", "u1", 0, 60000, none, none⟩] = none :=
  ⟨(touch_slides_expiration "zz" 70000 1 [⟨"s1", "u1", 0, 60000, none, none⟩]).1 (by decide),
    ((touch_slides_expiration "s1" 70000 1 [⟨"s1", "u1", 0, 60000, none, none⟩]).2.1
      ⟨"s1", "u1", 0, 60000, none, none⟩ (by decide)).1,
    ((touch_slides_expiration "s1" 70000 1 [⟨"s1", "u1", 0, 60000, none, none⟩]).2.1
      ⟨"s1", "u1", 0, 60000, none, none⟩ (by decide)).2.2.2,
    (touch_slides_expiration "s1" 70000 1 [⟨"s1", "u1", 0, 60000, none, none⟩]).2.2
      (by decide)⟩

/-! ## C9 -/

/-- C9: an expired-but-not-yet-cleaned session is invisible to
`getSession`, yet `updateSessionActivity` matches it (its `updateOne`
filter is `{sessionId}` only, with no expiry condition), succeeds with
`true`, and sets a fresh `expiresAt = now + window` — after which
`getSession` returns the session again, so expiry is not permanent
until the record is physically deleted. -/
theorem touch_revives_expired_session (sessionId : String) (now w : Nat)
    (st : List SessionRecord) (s : SessionRecord)
    (hone : st.filter (sessionIdIs sessionId) = [s])
    (hexp : s.expiresAt ≤ now) (hw : 0 < w) :
    getSession sessionId now st = none ∧
    (updateSessionActivity sessionId now w st).1 = true ∧
    getSession sessionId now ((updateSessionActivity sessionId now w st).2) =
      some (touchSession now (w * msPerMin) s) := by
  have hfind : st.find? (sessionIdIs sessionId) = some s := by
    rw [find?_eq_head?_of_filter, hone]
    rfl
  have hfresh : now < now + w * msPerMin := by
    have : 0 < w * msPerMin := Nat.mul_pos hw (by decide)
    omega
  refine ⟨?_, ?_, ?_⟩
  · apply List.find?_eq_none.mpr
    intro x hx hq
    have hid : sessionIdIs sessionId x = true := ((Bool.and_eq_true _ _).mp hq).1
    have hlt : now < x.expiresAt :=
      of_decide_eq_true ((Bool.and_eq_true _ _).mp hq).2
    have hxs : x = s := by
      have : x ∈ st.filter (sessionIdIs sessionId) := List.mem_filter.mpr ⟨hx, hid⟩
      rw [hone] at this
      simpa using this
    rw [hxs] at hlt
    exact absurd hlt (Nat.not_lt.mpr hexp)
  · have hne : touchSession now (w * msPerMin) s ≠ s := by
      intro heq
      have : (touchSession now (w * msPerMin) s).expiresAt = s.expiresAt := by rw [heq]
      simp only [touchSession] at this
      omega
    simp [updateSessionActivity, hfind, hne]
  · have hps : sessionIdIs sessionId s = true := List.find?_some hfind
    have hq : (fun x => sessionIdIs sessionId x && decide (now < x.expiresAt))
        (touchSession now (w * msPerMin) s) = true := by
      simp only [touchSession, sessionIdIs] at hps ⊢
      simp [hps, hfresh]
    have := find?_replaceFirst_of_imp
      (sessionIdIs sessionId)
      (fun x => sessionIdIs sessionId x && decide (now < x.expiresAt))
      (touchSession now (w * msPerMin)) hfind
      (fun x h => ((Bool.and_eq_true _ _).mp h).1) hq
    simpa [getSession, updateSessionActivity, hfind] using this

/-- C9 witness: a session expired 10 s ago is revived by a touch with a
30-minute window. -/
theorem touch_revives_expired_session_witness :
    getSession "s1" 70000 [⟨"s1", "u1", 0, 60000, none, none⟩] = none ∧
    (updateSessionActivity "s1" 70000 30 [⟨"s1", "u1", 0, 60000, none, none⟩]).1 = true ∧
    getSession "s1" 70000
        ((updateSessionActivity "s1" 70000 30 [⟨"s1", "u1", 0, 60000, none, none⟩]).2) =
      some (touchSession 70000 (30 * msPerMin) ⟨"s1", "u1", 0, 60000, none, none⟩) :=
  touch_revives_expired_session "s1" 70000 30 [⟨"s1", "u1", 0, 60000, none, none⟩]
    ⟨"s1", "u1", 0, 60000, none, none⟩ (by decide) (by decide) (by decide)

/-! ## C8 -/

/-- C8: when every delivery attempt throws, `sendVerificationEmail`
makes the initial attempt plus exactly 2 retries, waiting 2 s then 4 s
(exponential backoff starting at 2 s, never more than 2 retries), and
`sendRegistrationOTP` then fails with `EMAIL_SEND_FAILED` while the OTP
record persisted before the send attempt remains in the store — no
rollback on delivery failure. -/
theorem delivery_failure_retries_and_no_rollback
    (email : String) (now : Nat) (rand : Fin 900000) (oracle : Nat → Bool) (db : OtpDb)
    (h0 : oracle 0 = false) (h1 : oracle 1 = false) (h2 : oracle 2 = false)
    (hblock : ∀ u, db.users.find? (userEmailIs email) = some u → u.isVerified = false)
    (hno : db.otps.find? (otpEmailIs email) = none) :
    sendVerificationEmail oracle = (false, [2000, 4000]) ∧
    (∀ o : Nat → Bool, (sendVerificationEmail o).2.length ≤ 2) ∧
    (sendRegistrationOTP email false now rand oracle db).1 =
      Except.error IssueErr.emailSendFailed ∧
    (sendRegistrationOTP email false now rand oracle db).2.otps =
      db.otps ++ [⟨email, generateOTP rand, now + OTP_EXPIRY_MINUTES * msPerMin⟩] := by
  have hsend : sendVerificationEmail oracle = (false, [2000, 4000]) := by
    simp [sendVerificationEmail, sendLoop, h0, h1, h2, backoffDelay, MAX_EMAIL_RETRIES]
  have hlen : ∀ o : Nat → Bool, (sendVerificationEmail o).2.length ≤ 2 := by
    intro o
    cases a0 : o 0 with
    | true => simp [sendVerificationEmail, sendLoop, a0]
    | false =>
      cases a1 : o 1 with
      | true => simp [sendVerificationEmail, sendLoop, a0, a1, MAX_EMAIL_RETRIES]
      | false =>
        cases a2 : o 2 with
        | true => simp [sendVerificationEmail, sendLoop, a0, a1, a2, MAX_EMAIL_RETRIES]
        | false => simp [sendVerificationEmail, sendLoop, a0, a1, a2, MAX_EMAIL_RETRIES]
  have hrun : sendRegistrationOTP email false now rand oracle db =
      (Except.error IssueErr.emailSendFailed,
        { db with otps :=
            db.otps ++ [⟨email, generateOTP rand, now + OTP_EXPIRY_MINUTES * msPerMin⟩] }) := by
    rcases hu : db.users.find? (userEmailIs email) with _ | u
    · simp [sendRegistrationOTP, hu, hno, deliverOTP, hsend]
    · have hv := hblock u hu
      simp [sendRegistrationOTP, hu, hno, deliverOTP, hsend, hv]
  exact ⟨hsend, hlen, by rw [hrun], by rw [hrun]⟩

/-- C8 witness: an always-failing delivery oracle on an empty store. -/
theorem delivery_failure_retries_and_no_rollback_witness :
    sendVerificationEmail (fun _ => false) = (false, [2000, 4000]) ∧
    (∀ o : Nat → Bool, (sendVerificationEmail o).2.length ≤ 2) ∧
    (sendRegistrationOTP "a@example.com" false 0 ⟨0, by decide⟩ (fun _ => false)
        ⟨[], []⟩).1 = Except.error IssueErr.emailSendFailed ∧
    (sendRegistrationOTP "a@example.com" false 0 ⟨0, by decide⟩ (fun _ => false)
        ⟨[], []⟩).2.otps =
      [] ++ [⟨"a@example.com", generateOTP ⟨0, by decide⟩, 0 + OTP_EXPIRY_MINUTES * msPerMin⟩] :=
  delivery_failure_retries_and_no_rollback "a@example.com" 0 ⟨0, by decide⟩
    (fun _ => false) ⟨[], []⟩ rfl rfl rfl (fun u h => by simp at h) (by decide)

/-! ## More list helpers (OTP records) -/

theorem forall_not_of_find?_none {α} {p : α → Bool} {l : List α}
    (h : l.find? p = none) : ∀ a ∈ l, ¬ p a = true :=
  fun a ha => List.find?_eq_none.mp h a ha

theorem countP_eq_zero_of_find?_none {α} {p : α → Bool} {l : List α}
    (h : l.find? p = none) : l.countP p = 0 :=
  List.countP_eq_zero.mpr (forall_not_of_find?_none h)

theorem filter_eq_nil_of_find?_none {α} {p : α → Bool} {l : List α}
    (h : l.find? p = none) : l.filter p = [] :=
  List.filter_eq_nil_iff.mpr (forall_not_of_find?_none h)

theorem find?_append_singleton_of_none {α} {p : α → Bool} {l : List α} {a : α}
    (h : l.find? p = none) (ha : p a = true) : (l ++ [a]).find? p = some a := by
  rw [find?_append_eq_right p [a] h, List.find?_cons_of_pos [] ha]

theorem eraseP_append_singleton_of_none {α} {p : α → Bool} {l : List α} {a : α}
    (h : l.find? p = none) (ha : p a = true) : (l ++ [a]).eraseP p = l := by
  rw [List.eraseP_append_right [a] (forall_not_of_find?_none h),
    List.eraseP_cons_of_pos ha, List.append_nil]

theorem find?_eraseP_of_countP_le_one {α} {p : α → Bool} {l : List α}
    (h : l.countP p ≤ 1) : (l.eraseP p).find? p = none := by
  induction l with
  | nil => rfl
  | cons a t ih =>
    by_cases hpa : p a = true
    · rw [List.eraseP_cons_of_pos hpa]
      apply List.find?_eq_none.mpr
      intro x hx hpx
      rw [List.countP_cons] at h
      simp [hpa] at h
      rw [h x hx] at hpx
      exact Bool.false_ne_true hpx
    · rw [List.eraseP_cons_of_neg hpa, List.find?_cons_of_neg _ hpa]
      apply ih
      rw [List.countP_cons] at h
      simp [hpa] at h
      exact h

/-- A record matching `{email, otp}` in particular matches `{email}`:
if no record for the email exists, no `(email, otp)` match exists. -/
theorem no_email_no_otp_match (email otp : String) {l : List OTPRecord}
    (h : l.find? (otpEmailIs email) = none) :
    l.find? (otpMatches email otp) = none := by
  apply List.find?_eq_none.mpr
  intro r hr hm
  have : otpEmailIs email r = true := ((Bool.and_eq_true _ _).mp hm).1
  exact forall_not_of_find?_none h r hr this

/-! ## C1 -/

/-- C1: OTP verification is single-use.  After issuing an OTP for an
unverified user with no prior record, the first `verifyEmail` with the
issued code before expiry succeeds (returning the now-verified user) and
deletes the consumed record, restoring the OTP collection to its prior
contents; a second `verifyEmail` with the same email and code then fails
with `OTP_INVALID`. -/
theorem otp_single_use (email : String) (now t1 t2 : Nat) (rand : Fin 900000)
    (oracle : Nat → Bool) (db : OtpDb) (u : UserRec)
    (hu : db.users.find? (userEmailIs email) = some u)
    (hnv : u.isVerified = false)
    (hno : db.otps.find? (otpEmailIs email) = none)
    (hok : (sendVerificationEmail oracle).1 = true)
    (ht : t1 ≤ now + OTP_EXPIRY_MINUTES * msPerMin) :
    (sendRegistrationOTP email false now rand oracle db).1 =
      Except.ok ⟨generateOTP rand, false⟩ ∧
    (verifyEmail email (generateOTP rand) t1
        (sendRegistrationOTP email false now rand oracle db).2).1 =
      Except.ok { u with isVerified := true } ∧
    (verifyEmail email (generateOTP rand) t1
        (sendRegistrationOTP email false now rand oracle db).2).2.otps = db.otps ∧
    (verifyEmail email (generateOTP rand) t2
        (verifyEmail email (generateOTP rand) t1
          (sendRegistrationOTP email false now rand oracle db).2).2).1 =
      Except.error VerifyErr.otpInvalid := by
  set c := generateOTP rand with hc
  set newRec : OTPRecord := ⟨email, c, now + OTP_EXPIRY_MINUTES * msPerMin⟩ with hrec
  have hmatch : otpMatches email c newRec = true := by
    simp [otpMatches, hrec]
  have hrun : sendRegistrationOTP email false now rand oracle db =
      (Except.ok ⟨c, false⟩, { db with otps := db.otps ++ [newRec] }) := by
    simp [sendRegistrationOTP, hu, hnv, hno, deliverOTP, hok, hrec, hc]
  have hfind1 : (db.otps ++ [newRec]).find? (otpMatches email c) = some newRec :=
    find?_append_singleton_of_none (no_email_no_otp_match email c hno) hmatch
  have herase : (db.otps ++ [newRec]).eraseP (otpMatches email c) = db.otps :=
    eraseP_append_singleton_of_none (no_email_no_otp_match email c hno) hmatch
  have hnexp : ¬ newRec.expiresAt < t1 := by
    simp only [hrec]
    omega
  have hver1 : verifyEmail email c t1 { db with otps := db.otps ++ [newRec] } =
      (Except.ok { u with isVerified := true },
        { db with users := setVerified email db.users, otps := db.otps }) := by
    simp [verifyEmail, hfind1, hnexp, hu, herase]
  have hver2 : (verifyEmail email c t2
      { db with users := setVerified email db.users, otps := db.otps }).1 =
      Except.error VerifyErr.otpInvalid := by
    simp [verifyEmail, no_email_no_otp_match email c hno]
  refine ⟨by rw [hrun], ?_, ?_, ?_⟩
  · rw [hrun]
    simp [hver1]
  · rw [hrun]
    simp [hver1]
  · rw [hrun]
    simp only [hver1]
    exact hver2

/-- C1 witness: issue for `a@example.com` on a store holding only that
unverified user, then verify twice at the issue instant. -/
theorem otp_single_use_witness :
    (sendRegistrationOTP "a@example.com" false 0 ⟨23456, by decide⟩ (fun _ => true)
        ⟨[], [⟨"a@example.com", false⟩]⟩).1 =
      Except.ok ⟨generateOTP ⟨23456, by decide⟩, false⟩ ∧
    (verifyEmail "a@example.com" (generateOTP ⟨23456, by decide⟩) 0
        (sendRegistrationOTP "a@example.com" false 0 ⟨23456, by decide⟩ (fun _ => true)
          ⟨[], [⟨"a@example.com", false⟩]⟩).2).1 =
      Except.ok { email := "a@example.com", isVerified := true } ∧
    (verifyEmail "a@example.com" (generateOTP ⟨23456, by decide⟩) 0
        (sendRegistrationOTP "a@example.com" false 0 ⟨23456, by decide⟩ (fun _ => true)
          ⟨[], [⟨"a@example.com", false⟩]⟩).2).2.otps = [] ∧
    (verifyEmail "a@example.com" (generateOTP ⟨23456, by decide⟩) 0
        (verifyEmail "a@example.com" (generateOTP ⟨23456, by decide⟩) 0
          (sendRegistrationOTP "a@example.com" false 0 ⟨23456, by decide⟩ (fun _ => true)
            ⟨[], [⟨"a@example.com", false⟩]⟩).2).2).1 =
      Except.error VerifyErr.otpInvalid :=
  otp_single_use "a@example.com" 0 0 0 ⟨23456, by decide⟩ (fun _ => true)
    ⟨[], [⟨"a@example.com", false⟩]⟩ ⟨"a@example.com", false⟩
    (by decide) rfl rfl rfl (by decide)

/-! ## C10 -/

/-- C10: verifying with a matching-but-expired OTP deletes the expired
record as a side effect of the failed verify, so an immediate retry of
the exact same `verifyEmail(email, otp)` call fails with `OTP_INVALID`
instead of `OTP_EXPIRED` — the error code changes between the first and
second attempt on identical inputs. -/
theorem expired_verify_consumes_record (email otp : String) (t1 t2 : Nat)
    (db : OtpDb) (r : OTPRecord)
    (hfind : db.otps.find? (otpMatches email otp) = some r)
    (hexp : r.expiresAt < t1)
    (huniq : db.otps.countP (otpMatches email otp) ≤ 1) :
    (verifyEmail email otp t1 db).1 = Except.error VerifyErr.otpExpired ∧
    (verifyEmail email otp t1 db).2.otps = db.otps.eraseP (otpMatches email otp) ∧
    (verifyEmail email otp t2 (verifyEmail email otp t1 db).2).1 =
      Except.error VerifyErr.otpInvalid := by
  have hver1 : verifyEmail email otp t1 db =
      (Except.error VerifyErr.otpExpired,
        { db with otps := db.otps.eraseP (otpMatches email otp) }) := by
    simp [verifyEmail, hfind, hexp]
  have hnone : (db.otps.eraseP (otpMatches email otp)).find? (otpMatches email otp) =
      none := find?_eraseP_of_countP_le_one huniq
  refine ⟨by rw [hver1], by rw [hver1], ?_⟩
  rw [hver1]
  simp [verifyEmail, hnone]

/-- C10 witness: one expired record, verified twice at `t = 5000`. -/
theorem expired_verify_consumes_record_witness :
    (verifyEmail "e@x.com" "123456" 5000 ⟨[⟨"e@x.com", "123456", 4000⟩], []⟩).1 =
      Except.error VerifyErr.otpExpired ∧
    (verifyEmail "e@x.com" "123456" 5000 ⟨[⟨"e@x.com", "123456", 4000⟩], []⟩).2.otps =
      [⟨"e@x.com", "123456", 4000⟩].eraseP (otpMatches "e@x.com" "123456") ∧
    (verifyEmail "e@x.com" "123456" 5000
        (verifyEmail "e@x.com" "123456" 5000 ⟨[⟨"e@x.com", "123456", 4000⟩], []⟩).2).1 =
      Except.error VerifyErr.otpInvalid :=
  expired_verify_consumes_record "e@x.com" "123456" 5000 5000
    ⟨[⟨"e@x.com", "123456", 4000⟩], []⟩ ⟨"e@x.com", "123456", 4000⟩
    (by decide) (by decide) (by decide)

/-! ## C4 -/

/-- C4: OTP issuance is idempotent on a live record and fresh otherwise.
A non-resend issue finding an existing (in particular a live,
non-expired) record returns the stored code and leaves the store
untouched; a resend, or an issue finding no record, returns the freshly
generated code and persists it with `expiresAt = now + 10 min`; the
generated code lies in `100000..999999` and the generator is a bijection
from the uniform source `Fin 900000` onto that range. -/
theorem otp_issuance_idempotent_and_fresh
    (email : String) (now : Nat) (rand : Fin 900000) (oracle : Nat → Bool) (db : OtpDb)
    (hblock : ∀ u, db.users.find? (userEmailIs email) = some u → u.isVerified = false)
    (hok : (sendVerificationEmail oracle).1 = true) :
    (∀ r, db.otps.find? (otpEmailIs email) = some r → now < r.expiresAt →
      sendRegistrationOTP email false now rand oracle db =
        (Except.ok ⟨r.otp, (db.users.find? (userEmailIs email)).isNone⟩, db)) ∧
    (∀ isResend : Bool,
      (isResend = true ∨ db.otps.find? (otpEmailIs email) = none) →
      (sendRegistrationOTP email isResend now rand oracle db).1 =
        Except.ok ⟨generateOTP rand, (db.users.find? (userEmailIs email)).isNone⟩ ∧
      ∃ rest, (sendRegistrationOTP email isResend now rand oracle db).2.otps =
        rest ++ [⟨email, generateOTP rand, now + OTP_EXPIRY_MINUTES * msPerMin⟩]) ∧
    (100000 ≤ genCodeNat rand ∧ genCodeNat rand ≤ 999999) ∧
    (∀ ra rb : Fin 900000, genCodeNat ra = genCodeNat rb → ra = rb) ∧
    (∀ n : Nat, 100000 ≤ n → n ≤ 999999 → ∃ rc : Fin 900000, genCodeNat rc = n) := by
  refine ⟨?_, ?_, ?_, ?_, ?_⟩
  · intro r hr hlive
    rcases hu : db.users.find? (userEmailIs email) with _ | u
    · simp [sendRegistrationOTP, hu, hr, deliverOTP, hok]
    · have hv := hblock u hu
      simp [sendRegistrationOTP, hu, hr, deliverOTP, hok, hv]
  · intro isResend hcase
    rcases hf : db.otps.find? (otpEmailIs email) with _ | r
    · constructor
      · rcases hu : db.users.find? (userEmailIs email) with _ | u
        · cases isResend <;> simp [sendRegistrationOTP, hu, hf, deliverOTP, hok]
        · have hv := hblock u hu
          cases isResend <;> simp [sendRegistrationOTP, hu, hf, deliverOTP, hok, hv]
      · refine ⟨db.otps, ?_⟩
        rcases hu : db.users.find? (userEmailIs email) with _ | u
        · cases isResend <;> simp [sendRegistrationOTP, hu, hf, deliverOTP, hok]
        · have hv := hblock u hu
          cases isResend <;> simp [sendRegistrationOTP, hu, hf, deliverOTP, hok, hv]
    · have hres : isResend = true := by
        rcases hcase with h | h
        · exact h
        · rw [h] at hf
          exact absurd hf (by simp)
      subst hres
      constructor
      · rcases hu : db.users.find? (userEmailIs email) with _ | u <;>
          simp [sendRegistrationOTP, hu, hf, deliverOTP, hok]
      · refine ⟨db.otps.eraseP (otpEmailIs email), ?_⟩
        rcases hu : db.users.find? (userEmailIs email) with _ | u <;>
          simp [sendRegistrationOTP, hu, hf, deliverOTP, hok]
  · have := rand.isLt
    constructor
    · simp [genCodeNat]
    · simp [genCodeNat]
      omega
  · intro ra rb h
    have hv : ra.val = rb.val := by
      simp [genCodeNat] at h
      omega
    exact Fin.ext hv
  · intro n h1 h2
    exact ⟨⟨n - 100000, by omega⟩, by simp [genCodeNat]; omega⟩

/-- C4 witness: a store with one live record for `b@x.com` (reuse on
non-resend), then a resend on the same store (fresh code persisted). -/
theorem otp_issuance_idempotent_and_fresh_witness :
    sendRegistrationOTP "b@x.com" false 0 ⟨0, by decide⟩ (fun _ => true)
        ⟨[⟨"b@x.com", "111111", 900000⟩], []⟩ =
      (Except.ok ⟨"111111", true⟩, ⟨[⟨"b@x.com", "111111", 900000⟩], []⟩) ∧
    ((sendRegistrationOTP "b@x.com" true 0 ⟨0, by decide⟩ (fun _ => true)
        ⟨[⟨"b@x.com", "111111", 900000⟩], []⟩).1 =
      Except.ok ⟨generateOTP ⟨0, by decide⟩, true⟩ ∧
      ∃ rest, (sendRegistrationOTP "b@x.com" true 0 ⟨0, by decide⟩ (fun _ => true)
        ⟨[⟨"b@x.com", "111111", 900000⟩], []⟩).2.otps =
        rest ++ [⟨"b@x.com", generateOTP ⟨0, by decide⟩, 0 + OTP_EXPIRY_MINUTES * msPerMin⟩]) ∧
    (100000 ≤ genCodeNat ⟨0, by decide⟩ ∧ genCodeNat ⟨0, by decide⟩ ≤ 999999) :=
  ⟨(otp_issuance_idempotent_and_fresh "b@x.com" 0 ⟨0, by decide⟩ (fun _ => true)
      ⟨[⟨"b@x.com", "111111", 900000⟩], []⟩ (fun u h => by simp at h) rfl).1
      ⟨"b@x.com", "111111", 900000⟩ (by decide) (by decide),
    (otp_issuance_idempotent_and_fresh "b@x.com" 0 ⟨0, by decide⟩ (fun _ => true)
      ⟨[⟨"b@x.com", "111111", 900000⟩], []⟩ (fun u h => by simp at h) rfl).2.1
      true (Or.inl rfl),
    (otp_issuance_idempotent_and_fresh "b@x.com" 0 ⟨0, by decide⟩ (fun _ => true)
      ⟨[⟨"b@x.com", "111111", 900000⟩], []⟩ (fun u h => by simp at h) rfl).2.2.1⟩

/-! ## C5 helper lemmas -/

/-- A resend always regenerates: it deletes the (at most one) existing
row for the email and appends the fresh record, whatever the user
lookup returns (`ALREADY_VERIFIED` never fires on a resend). -/
theorem sendRegistrationOTP_resend_fresh (em : String) (n : Nat) (rr : Fin 900000)
    (oo : Nat → Bool) (d : OtpDb)
    (hok : (sendVerificationEmail oo).1 = true) :
    sendRegistrationOTP em true n rr oo d =
      (Except.ok ⟨generateOTP rr, (d.users.find? (userEmailIs em)).isNone⟩,
        { d with otps := (d.otps.eraseP (otpEmailIs em)) ++
            [⟨em, generateOTP rr, n + OTP_EXPIRY_MINUTES * msPerMin⟩] }) := by
  rcases hf : d.otps.find? (otpEmailIs em) with _ | r
  · rw [List.eraseP_of_forall_not (forall_not_of_find?_none hf)]
    rcases hu : d.users.find? (userEmailIs em) with _ | u <;>
      simp [sendRegistrationOTP, hu, hf, deliverOTP, hok]
  · rcases hu : d.users.find? (userEmailIs em) with _ | u <;>
      simp [sendRegistrationOTP, hu, hf, deliverOTP, hok]

/-- Whatever `sendRegistrationOTP` does, the resulting OTP collection is
either unchanged, or the previous one with the (at most one) row for the
email erased and the fresh record appended. -/
theorem sendRegistrationOTP_otps_cases (em : String) (isR : Bool) (n : Nat)
    (rr : Fin 900000) (oo : Nat → Bool) (d : OtpDb) :
    (sendRegistrationOTP em isR n rr oo d).2.otps = d.otps ∨
    (sendRegistrationOTP em isR n rr oo d).2.otps =
      (d.otps.eraseP (otpEmailIs em)) ++
        [⟨em, generateOTP rr, n + OTP_EXPIRY_MINUTES * msPerMin⟩] := by
  rcases hf : d.otps.find? (otpEmailIs em) with _ | r
  · rcases hu : d.users.find? (userEmailIs em) with _ | u
    · right
      rw [List.eraseP_of_forall_not (forall_not_of_find?_none hf)]
      cases isR <;> cases hs : (sendVerificationEmail oo).1 <;>
        simp [sendRegistrationOTP, hu, hf, deliverOTP, hs]
    · by_cases hv : u.isVerified = true
      · cases isR
        · left
          simp [sendRegistrationOTP, hu, hf, hv]
        · right
          rw [List.eraseP_of_forall_not (forall_not_of_find?_none hf)]
          cases hs : (sendVerificationEmail oo).1 <;>
            simp [sendRegistrationOTP, hu, hf, deliverOTP, hs, hv]
      · right
        rw [List.eraseP_of_forall_not (forall_not_of_find?_none hf)]
        cases isR <;> cases hs : (sendVerificationEmail oo).1 <;>
          simp [sendRegistrationOTP, hu, hf, deliverOTP, hs, hv]
  · cases isR
    · rcases hu : d.users.find? (userEmailIs em) with _ | u
      · left
        cases hs : (sendVerificationEmail oo).1 <;>
          simp [sendRegistrationOTP, hu, hf, deliverOTP, hs]
      · by_cases hv : u.isVerified = true
        · left
          simp [sendRegistrationOTP, hu, hf, hv]
        · left
          cases hs : (sendVerificationEmail oo).1 <;>
            simp [sendRegistrationOTP, hu, hf, deliverOTP, hs, hv]
    · right
      rcases hu : d.users.find? (userEmailIs em) with _ | u <;>
        cases hs : (sendVerificationEmail oo).1 <;>
        simp [sendRegistrationOTP, hu, hf, deliverOTP, hs]

/-- Issuance preserves "at most one OTP row per email". -/
theorem sendRegistrationOTP_preserves_at_most_one (em : String) (isR : Bool) (n : Nat)
    (rr : Fin 900000) (oo : Nat → Bool) (d : OtpDb) (e : String)
    (hinv : d.otps.countP (otpEmailIs e) ≤ 1) :
    (sendRegistrationOTP em isR n rr oo d).2.otps.countP (otpEmailIs e) ≤ 1 := by
  rcases sendRegistrationOTP_otps_cases em isR n rr oo d with h | h
  · rw [h]; exact hinv
  · rw [h, List.countP_append]
    by_cases he : (em == e) = true
    · have hee : em = e := eq_of_beq he
      subst hee
      have h1 : (d.otps.eraseP (otpEmailIs em)).countP (otpEmailIs em) = 0 :=
        countP_eq_zero_of_find?_none (find?_eraseP_of_countP_le_one hinv)
      have h2 : List.countP (otpEmailIs em)
          [⟨em, generateOTP rr, n + OTP_EXPIRY_MINUTES * msPerMin⟩] = 1 := by
        simp [List.countP_cons, otpEmailIs]
      omega
    · have h1 : (d.otps.eraseP (otpEmailIs e)).countP (otpEmailIs e) ≤ 1 := by
        calc (d.otps.eraseP (otpEmailIs e)).countP (otpEmailIs e)
            ≤ d.otps.countP (otpEmailIs e) := (List.eraseP_sublist d.otps).countP_le _
          _ ≤ 1 := hinv
      have h1' : (d.otps.eraseP (otpEmailIs em)).countP (otpEmailIs e) ≤ 1 := by
        calc (d.otps.eraseP (otpEmailIs em)).countP (otpEmailIs e)
            ≤ d.otps.countP (otpEmailIs e) := (List.eraseP_sublist d.otps).countP_le _
          _ ≤ 1 := hinv
      have h2 : List.countP (otpEmailIs e)
          [⟨em, generateOTP rr, n + OTP_EXPIRY_MINUTES * msPerMin⟩] = 0 := by
        simp [List.countP_cons, otpEmailIs, he]
      omega

/-! ## C5 -/

/-- C5: at most one live OTP record per email.  Issuance preserves the
"at most one row per email" invariant; after two consecutive resends for
the same email (starting with no row for it), exactly one OTP record
exists for that email and its code is the second-generated value; and
verifying with the first code (when it differs from the second) fails
with `OTP_INVALID` — the earlier OTP has been invalidated. -/
theorem otp_at_most_one_per_email
    (email : String) (t1 t2 t3 : Nat) (r1 r2 : Fin 900000)
    (o1 o2 : Nat → Bool) (db : OtpDb)
    (hno : db.otps.find? (otpEmailIs email) = none)
    (hok1 : (sendVerificationEmail o1).1 = true)
    (hok2 : (sendVerificationEmail o2).1 = true)
    (hcc : generateOTP r1 ≠ generateOTP r2) :
    (∀ (em : String) (isR : Bool) (n : Nat) (rr : Fin 900000) (oo : Nat → Bool)
        (d : OtpDb) (e : String), d.otps.countP (otpEmailIs e) ≤ 1 →
      (sendRegistrationOTP em isR n rr oo d).2.otps.countP (otpEmailIs e) ≤ 1) ∧
    ((sendRegistrationOTP email true t2 r2 o2
        (sendRegistrationOTP email true t1 r1 o1 db).2).2.otps.filter
          (otpEmailIs email) =
      [⟨email, generateOTP r2, t2 + OTP_EXPIRY_MINUTES * msPerMin⟩]) ∧
    ((verifyEmail email (generateOTP r1) t3
        (sendRegistrationOTP email true t2 r2 o2
          (sendRegistrationOTP email true t1 r1 o1 db).2).2).1 =
      Except.error VerifyErr.otpInvalid) := by
  have hrec1 : otpEmailIs email
      (⟨email, generateOTP r1, t1 + OTP_EXPIRY_MINUTES * msPerMin⟩ : OTPRecord) = true := by
    simp [otpEmailIs]
  have hotps1 : (sendRegistrationOTP email true t1 r1 o1 db).2.otps =
      db.otps ++ [⟨email, generateOTP r1, t1 + OTP_EXPIRY_MINUTES * msPerMin⟩] := by
    rw [sendRegistrationOTP_resend_fresh email t1 r1 o1 db hok1,
      List.eraseP_of_forall_not (forall_not_of_find?_none hno)]
  have hotps2 : (sendRegistrationOTP email true t2 r2 o2
        (sendRegistrationOTP email true t1 r1 o1 db).2).2.otps =
      db.otps ++ [⟨email, generateOTP r2, t2 + OTP_EXPIRY_MINUTES * msPerMin⟩] := by
    rw [sendRegistrationOTP_resend_fresh email t2 r2 o2
      (sendRegistrationOTP email true t1 r1 o1 db).2 hok2]
    simp only [hotps1]
    rw [eraseP_append_singleton_of_none hno hrec1]
  refine ⟨fun em isR n rr oo d e h =>
    sendRegistrationOTP_preserves_at_most_one em isR n rr oo d e h, ?_, ?_⟩
  · rw [hotps2, List.filter_append, filter_eq_nil_of_find?_none hno]
    simp [otpEmailIs]
  · have hnomatch : (sendRegistrationOTP email true t2 r2 o2
        (sendRegistrationOTP email true t1 r1 o1 db).2).2.otps.find?
          (otpMatches email (generateOTP r1)) = none := by
      rw [hotps2,
        find?_append_eq_right _ _ (no_email_no_otp_match email (generateOTP r1) hno)]
      apply List.find?_eq_none.mpr
      intro x hx
      have hxr : x = ⟨email, generateOTP r2, t2 + OTP_EXPIRY_MINUTES * msPerMin⟩ := by
        simpa using hx
      subst hxr
      simp [otpMatches]
      exact fun h => hcc h.symm
    simp [verifyEmail, hnomatch]

/-- C5 witness: two resends for `b@example.com` on an empty store with
distinct generated codes `100000` then `100001`. -/
theorem otp_at_most_one_per_email_witness :
    ((sendRegistrationOTP "b@example.com" true 0 ⟨1, by decide⟩ (fun _ => true)
        (sendRegistrationOTP "b@example.com" true 0 ⟨0, by decide⟩ (fun _ => true)
          ⟨[], []⟩).2).2.otps.filter (otpEmailIs "b@example.com") =
      [⟨"b@example.com", generateOTP ⟨1, by decide⟩, 0 + OTP_EXPIRY_MINUTES * msPerMin⟩]) ∧
    ((verifyEmail "b@example.com" (generateOTP ⟨0, by decide⟩) 0
        (sendRegistrationOTP "b@example.com" true 0 ⟨1, by decide⟩ (fun _ => true)
          (sendRegistrationOTP "b@example.com" true 0 ⟨0, by decide⟩ (fun _ => true)
            ⟨[], []⟩).2).2).1 = Except.error VerifyErr.otpInvalid) :=
  ⟨(otp_at_most_one_per_email "b@example.com" 0 0 0 ⟨0, by decide⟩ ⟨1, by decide⟩
      (fun _ => true) (fun _ => true) ⟨[], []⟩ rfl rfl rfl (by decide)).2.1,
    (otp_at_most_one_per_email "b@example.com" 0 0 0 ⟨0, by decide⟩ ⟨1, by decide⟩
      (fun _ => true) (fun _ => true) ⟨[], []⟩ rfl rfl rfl (by decide)).2.2⟩

end GateKeeper
